import Mathlib

/-!
# Verification of the cuboOLAP client-side table renderer

Shallow embedding of the table-rendering scripts of the cuboOLAP
repository.  The repository contains three effective variants of the
`renderTable` routine:

* `src/actCubo/static/main.js`, lines 34-71 (`ActCubo.renderTable`);
* `src/unnamed/part_000`, lines 7-39, the top-level declaration used by
  the dice/cubo/celda handlers of that file (`Unnamed.renderTable`);
* `src/funciones/static/main.js`, lines 130-165 -- the file declares
  `renderTable` twice at top level, and by JavaScript function hoisting
  the second declaration is the one every call in the file resolves to
  (`Funciones.renderTable`).

JavaScript numbers are modelled as exact rationals (the spec treats the
binary-double rounding of `toFixed` as implementation-defined, and no
claim depends on it); strings as Lean strings; `null` and `undefined` as
explicit value constructors.  A row object is an association list of
properties in insertion order, and reading an absent property yields
`undefined`.  The display surface is modelled as a map from container id
to its current innerHTML string; an innerHTML assignment replaces the
previous content of that container.
-/

/-- A JavaScript scalar value as it occurs in the JSON responses:
a number, a string, `null`, or `undefined` (also the result of reading
an absent property). -/
inductive JSValue where
  | num (q : ℚ)
  | str (s : String)
  | null
  | undef
deriving DecidableEq, Repr

/-- A row record: a JavaScript object, modelled as an association list of
properties in insertion order. -/
abbrev Row := List (String × JSValue)

/-- Property read `row[c]`: the first binding of the key, `undefined`
when the key is absent. -/
def getProp (row : Row) (c : String) : JSValue :=
  match row.find? (fun p => p.1 == c) with
  | some p => p.2
  | none => JSValue.undef

/-- The runtime error raised when the renderer iterates a null or
undefined `columns` argument (`for (const c of columns)` throws a
TypeError). -/
inductive JSError where
  | typeError
deriving DecidableEq, Repr

/-- Models `String.prototype.toLowerCase`, restricted to the characters this
code base uses: ASCII letters plus the `Ñ`/`ñ` pair of the Spanish
column names. -/
def jsCharToLower (c : Char) : Char :=
  if c = 'Ñ' then 'ñ' else c.toLower

/-- Models `c.toLowerCase()` on a column name. -/
def jsToLowerCase (s : String) : String :=
  String.mk (s.data.map jsCharToLower)

/-- Models `Math.trunc` followed by string interpolation: the fractional part
of the magnitude is discarded (rounding toward zero), the sign is
reapplied.  `q.den` is positive by the `Rat` invariant, so
`q.num.natAbs / q.den` is the truncated magnitude. -/
def jsTrunc (q : ℚ) : Int :=
  if q.num < 0 then -(Int.ofNat (q.num.natAbs / q.den))
  else Int.ofNat (q.num.natAbs / q.den)

/-- Renders a fractional part below 100 with exactly two digits. -/
def twoDigits (f : Nat) : String :=
  if f < 10 then "0" ++ toString f else toString f

/-- Computes `100 * |q|` rounded to the nearest integer, ties away from zero:
for `|q| = n/d` this is `⌊(100 n + d/2) / d⌋ = (200 n + d) / (2 d)`
in natural-number arithmetic. -/
def scaledHundred (q : ℚ) : Nat :=
  (200 * q.num.natAbs + q.den) / (2 * q.den)

/-- Models `v.toFixed(2)`: sign, integer part, a dot, and exactly two
fractional digits; the magnitude is rounded to the nearest multiple of
1/100 (ties away from zero in this exact-rational model; the spec
treats the rounding of the binary-double implementation as
implementation-defined). -/
def jsToFixed2 (q : ℚ) : String :=
  (if q.num < 0 then "-" else "")
    ++ toString (scaledHundred q / 100)
    ++ "."
    ++ twoDigits (scaledHundred q % 100)

/-!
## The table markup builders

Each `renderTable` variant builds the header and body by appending to an
accumulator string inside `for (const … of …)` loops, then wraps the two
parts in a `<table>` element.  The loops are modelled as left folds; the
per-cell formatting differs between the variants and is passed in as the
`cell` function.
-/

/-- Header construction: `thead = "<thead><tr>"`, one `<th>` appended
per column in order, then `"</tr></thead>"`. -/
def theadHTML (columns : List String) : String :=
  columns.foldl (fun acc c => acc ++ ("<th>" ++ c ++ "</th>")) "<thead><tr>"
    ++ "</tr></thead>"

/-- One body row: `"<tr>"`, one `<td>` appended per column in order
holding the formatted cell text, then `"</tr>"`. -/
def rowHTML (cell : Row → String → String) (columns : List String) (row : Row) : String :=
  columns.foldl (fun acc c => acc ++ ("<td>" ++ cell row c ++ "</td>")) "<tr>"
    ++ "</tr>"

/-- Body construction: `tbody = "<tbody>"`, one row appended per record
in input order, then `"</tbody>"`. -/
def tbodyHTML (cell : Row → String → String) (columns : List String) (rows : List Row) : String :=
  rows.foldl (fun acc r => acc ++ rowHTML cell columns r) "<tbody>"
    ++ "</tbody>"

/-- The complete markup written to the container:
`` `<table>${thead}${tbody}</table>` ``. -/
def tableHTML (cell : Row → String → String) (columns : List String) (rows : List Row) : String :=
  "<table>" ++ theadHTML columns ++ tbodyHTML cell columns rows ++ "</table>"

namespace ActCubo

/-- The integer-formatted column names of
`src/actCubo/static/main.js` line 57, in source order. -/
def integerColumns : List String := ["año", "cantidad", "trimestre"]

/-- Cell formatting of `src/actCubo/static/main.js` lines 52-64:
a number is formatted with `toFixed(2)` unless the lower-cased column
name is in `integerColumns`, in which case it is truncated with
`Math.trunc`; the final interpolation is `` `<td>${v ?? ""}</td>` ``,
so both `null` and `undefined` display as the empty string. -/
def renderCell (row : Row) (c : String) : String :=
  match getProp row c with
  | JSValue.num q =>
      if integerColumns.contains (jsToLowerCase c) = false then jsToFixed2 q
      else toString (jsTrunc q)
  | JSValue.str s => s
  | JSValue.null => ""
  | JSValue.undef => ""

/-- Models `renderTable` of `src/actCubo/static/main.js` lines 34-71, as the
string assigned to the container's innerHTML.  `rows` null/undefined or
empty short-circuits to the placeholder before `columns` is touched;
on the non-empty path a null/undefined `columns` makes the
`for (const c of columns)` loop throw. -/
def renderTable (columns : Option (List String)) (rows : Option (List Row)) :
    Except JSError String :=
  match rows with
  | none => Except.ok "<em>Sin datos</em>"
  | some [] => Except.ok "<em>Sin datos</em>"
  | some rs =>
      match columns with
      | none => Except.error JSError.typeError
      | some cs => Except.ok (tableHTML renderCell cs rs)

end ActCubo

namespace Funciones

/-- The integer-formatted column names of
`src/funciones/static/main.js` line 151, in source order. -/
def integerColumns : List String := ["año", "trimestre", "cantidad"]

/-- Cell formatting of `src/funciones/static/main.js` lines 146-157
(the effective, second top-level `renderTable` declaration): same
numeric policy as the actCubo variant, but the final interpolation is
`` `<td>${value !== undefined ? value : ""}</td>` ``, so `undefined`
displays as the empty string while `null` is interpolated as the string
`"null"`. -/
def renderCell (row : Row) (c : String) : String :=
  match getProp row c with
  | JSValue.num q =>
      if integerColumns.contains (jsToLowerCase c) = false then jsToFixed2 q
      else toString (jsTrunc q)
  | JSValue.str s => s
  | JSValue.null => "null"
  | JSValue.undef => ""

/-- Models `renderTable` of `src/funciones/static/main.js` lines 130-165. -/
def renderTable (columns : Option (List String)) (rows : Option (List Row)) :
    Except JSError String :=
  match rows with
  | none => Except.ok "<em>Sin datos</em>"
  | some [] => Except.ok "<em>Sin datos</em>"
  | some rs =>
      match columns with
      | none => Except.error JSError.typeError
      | some cs => Except.ok (tableHTML renderCell cs rs)

end Funciones

namespace Unnamed

/-- Cell formatting of `src/unnamed/part_000` lines 23-31 (the
top-level `renderTable` used by the dice, cubo and celda handlers of
that file): every number is formatted with `toFixed(2)` -- this variant
has no integer-column exception -- and the interpolation
`` `<td>${value !== undefined ? value : ""}</td>` `` displays
`undefined` as the empty string and `null` as `"null"`. -/
def renderCell (row : Row) (c : String) : String :=
  match getProp row c with
  | JSValue.num q => jsToFixed2 q
  | JSValue.str s => s
  | JSValue.null => "null"
  | JSValue.undef => ""

/-- Models `renderTable` of `src/unnamed/part_000` lines 7-39. -/
def renderTable (columns : Option (List String)) (rows : Option (List Row)) :
    Except JSError String :=
  match rows with
  | none => Except.ok "<em>Sin datos</em>"
  | some [] => Except.ok "<em>Sin datos</em>"
  | some rs =>
      match columns with
      | none => Except.error JSError.typeError
      | some cs => Except.ok (tableHTML renderCell cs rs)

end Unnamed

/-!
## The display surface and the fetch handlers

`document.getElementById(id).innerHTML = s` is modelled as a pointwise
update of a map from container id to content.  A fetch (with its JSON
parse) is modelled by its outcome: `Except.ok` carrying the decoded
response, `Except.error` for a network or parse failure.  A handler
maps the current display state and the fetch outcome to the final
display state, together with a flag recording whether an exception
escaped the handler (no `try/catch` around the failing step).
-/

/-- Models an `innerHTML` assignment: replaces the content of one container,
leaves every other container unchanged. -/
def setInnerHTML (dom : String → String) (id content : String) : String → String :=
  fun k => if k = id then content else dom k

/-- The JSON body used by the actCubo handlers: `data.columns`,
`data.cols` and `data.data` are independent optional fields (a field a
given endpoint does not send reads as `undefined`). -/
structure ApiResponse where
  columns : Option (List String)
  cols : Option (List String)
  data : Option (List Row)

/-- Final display state of a handler run, plus whether an exception
escaped the handler uncaught. -/
structure HandlerResult where
  dom : String → String
  uncaught : Bool

namespace ActCubo

/-- Models `renderTable(containerId, columns, rows)` acting on the display
state: on success the container's content is replaced by the produced
markup. -/
def renderTableInto (dom : String → String) (containerId : String)
    (columns : Option (List String)) (rows : Option (List Row)) :
    Except JSError (String → String) :=
  (renderTable columns rows).map (fun html => setInnerHTML dom containerId html)

/-- Models `generarCara` of `src/actCubo/static/main.js` lines 100-116:
writes the loading text, then renders the fetched face inside a
`try`; any failure of the fetch/parse/render is caught and replaced by
the `"Error al cargar"` placeholder. -/
def generarCara (dom : String → String) (fetchResult : Except Unit ApiResponse) :
    HandlerResult :=
  let dom1 := setInnerHTML dom "cara-resultado" "<em>Cargando...</em>"
  match fetchResult with
  | Except.error _ =>
      ⟨setInnerHTML dom1 "cara-resultado" "<em>Error al cargar</em>", false⟩
  | Except.ok resp =>
      match renderTableInto dom1 "cara-resultado" resp.columns resp.data with
      | Except.ok d => ⟨d, false⟩
      | Except.error _ =>
          ⟨setInnerHTML dom1 "cara-resultado" "<em>Error al cargar</em>", false⟩

/-- Models `generarDice` of `src/actCubo/static/main.js` lines 166-187: same
`try/catch` shape as `generarCara`, with its own loading and error
texts. -/
def generarDice (dom : String → String) (fetchResult : Except Unit ApiResponse) :
    HandlerResult :=
  let dom1 := setInnerHTML dom "dice-resultado" "<em>Cargando sección del cubo...</em>"
  match fetchResult with
  | Except.error _ =>
      ⟨setInnerHTML dom1 "dice-resultado" "<em>Error al cargar datos</em>", false⟩
  | Except.ok resp =>
      match renderTableInto dom1 "dice-resultado" resp.columns resp.data with
      | Except.ok d => ⟨d, false⟩
      | Except.error _ =>
          ⟨setInnerHTML dom1 "dice-resultado" "<em>Error al cargar datos</em>", false⟩

/-- Models `generarCubo` of `src/actCubo/static/main.js` lines 260-276: writes
the loading text, then awaits the fetch and renders `data.cols` /
`data.data` with NO surrounding `try/catch`: a fetch or render failure
escapes as an unhandled rejection and the container keeps the loading
text. -/
def generarCubo (dom : String → String) (fetchResult : Except Unit ApiResponse) :
    HandlerResult :=
  let dom1 := setInnerHTML dom "cubo-resultado" "<em>Cargando cubo...</em>"
  match fetchResult with
  | Except.error _ => ⟨dom1, true⟩
  | Except.ok resp =>
      match renderTableInto dom1 "cubo-resultado" resp.cols resp.data with
      | Except.ok d => ⟨d, false⟩
      | Except.error _ => ⟨dom1, true⟩

end ActCubo

/-- One block appended to `#cubo-resultado` by the `/api/cubo` click
handler: a title element holding the view label, and a wrapper whose
innerHTML `renderTable` fills with the table markup. -/
structure CuboBlock where
  title : String
  html : String
deriving DecidableEq, Repr

namespace Unnamed

/-- The `btn-cubo` click handler of `src/unnamed/part_000` lines
165-198: the response is a mapping from view label to row array
(`Object.entries` iterated in insertion order); a view whose rows are
null or empty is skipped (`return` inside `forEach`), any other view
appends a block titled with the view label and rendered by
`renderTable` with the column list `Object.keys(rows[0])` -- the key
sequence of the first row.  `renderTable` is called with a non-null
column list and non-empty rows, so it produces exactly
`tableHTML renderCell cols rows` (see `Unnamed.renderTable_some_cons`
below). -/
def btnCuboHandler (data : List (String × Option (List Row))) : List CuboBlock :=
  data.foldl (fun acc entry =>
    match entry.2 with
    | none => acc
    | some [] => acc
    | some (r :: rs) =>
        acc ++ [⟨entry.1, tableHTML renderCell (r.map Prod.fst) (r :: rs)⟩]) []

end Unnamed

/-!
## Structural lemmas about the generated markup

The accumulator loops are related to a `map`/`join` normal form, which
exhibits directly that the header holds one cell per column in input
order and the body one row per record, each with one cell per column in
the same order.
-/

/-- Concatenation of a list of strings, in order. -/
def strJoin : List String → String
  | [] => ""
  | s :: rest => s ++ strJoin rest

theorem strJoin_append (l₁ l₂ : List String) :
    strJoin (l₁ ++ l₂) = strJoin l₁ ++ strJoin l₂ := by
  induction l₁ with
  | nil => simp [strJoin]
  | cons a l ih => simp [strJoin, ih, String.append_assoc]

theorem foldl_append_eq {α : Type} (f : α → String) (l : List α) (init : String) :
    l.foldl (fun acc x => acc ++ f x) init = init ++ strJoin (l.map f) := by
  induction l generalizing init with
  | nil => simp [strJoin]
  | cons a l ih => simp [List.foldl, strJoin, ih, String.append_assoc]

theorem theadHTML_eq (columns : List String) :
    theadHTML columns =
      "<thead><tr>" ++ strJoin (columns.map fun c => "<th>" ++ c ++ "</th>")
        ++ "</tr></thead>" := by
  rw [theadHTML, foldl_append_eq]

theorem rowHTML_eq (cell : Row → String → String) (columns : List String) (row : Row) :
    rowHTML cell columns row =
      "<tr>" ++ strJoin (columns.map fun c => "<td>" ++ cell row c ++ "</td>")
        ++ "</tr>" := by
  rw [rowHTML, foldl_append_eq]

theorem tbodyHTML_eq (cell : Row → String → String) (columns : List String) (rows : List Row) :
    tbodyHTML cell columns rows =
      "<tbody>"
        ++ strJoin (rows.map fun r =>
             "<tr>" ++ strJoin (columns.map fun c => "<td>" ++ cell r c ++ "</td>")
               ++ "</tr>")
        ++ "</tbody>" := by
  have h : rowHTML cell columns = fun r =>
      "<tr>" ++ strJoin (columns.map fun c => "<td>" ++ cell r c ++ "</td>") ++ "</tr>" :=
    funext fun r => rowHTML_eq cell columns r
  rw [tbodyHTML, foldl_append_eq, h]

theorem tableHTML_eq (cell : Row → String → String) (columns : List String) (rows : List Row) :
    tableHTML cell columns rows =
      "<table>"
        ++ ("<thead><tr>" ++ strJoin (columns.map fun c => "<th>" ++ c ++ "</th>")
             ++ "</tr></thead>")
        ++ ("<tbody>"
             ++ strJoin (rows.map fun r =>
                  "<tr>" ++ strJoin (columns.map fun c => "<td>" ++ cell r c ++ "</td>")
                    ++ "</tr>")
             ++ "</tbody>")
        ++ "</table>" := by
  rw [tableHTML, theadHTML_eq, tbodyHTML_eq]

/-- Predicate `Occurs m s`: the string `m` appears verbatim (unescaped, as a
contiguous substring) in `s`. -/
def Occurs (m s : String) : Prop :=
  ∃ p q, s = p ++ m ++ q

theorem Occurs.extend {m J : String} (h : Occurs m J) (pre post : String) :
    Occurs m (pre ++ J ++ post) := by
  obtain ⟨p, q, rfl⟩ := h
  exact ⟨pre ++ p, q ++ post, by simp [String.append_assoc]⟩

theorem occurs_strJoin_map {α : Type} (f : α → String) {x : α} {l : List α}
    (hx : x ∈ l) {m : String} (hm : Occurs m (f x)) :
    Occurs m (strJoin (l.map f)) := by
  obtain ⟨l₁, l₂, rfl⟩ := List.append_of_mem hx
  obtain ⟨p, q, hpq⟩ := hm
  refine ⟨strJoin (l₁.map f) ++ p, q ++ strJoin (l₂.map f), ?_⟩
  rw [List.map_append, strJoin_append, List.map_cons, strJoin, hpq]
  simp [String.append_assoc]

theorem occurs_self (m : String) : Occurs m m :=
  ⟨"", "", by simp⟩

theorem occurs_mid (pre m post : String) : Occurs m (pre ++ m ++ post) :=
  ⟨pre, post, rfl⟩

/-!
## Shared facts about the renderers
-/

/-- On the arguments the cubo click handler passes (a present column
list, non-empty rows), `Unnamed.renderTable` returns exactly the table
markup. -/
theorem Unnamed.renderTable_some_cons (cs : List String) (r : Row) (rs : List Row) :
    Unnamed.renderTable (some cs) (some (r :: rs)) =
      Except.ok (tableHTML Unnamed.renderCell cs (r :: rs)) := rfl

/-- The two hard-coded integer-column lists differ only in order, so
membership in them coincides. -/
theorem funciones_contains_eq (s : String) :
    Funciones.integerColumns.contains s = ActCubo.integerColumns.contains s := by
  rw [Funciones.integerColumns, ActCubo.integerColumns]
  simp only [List.contains_cons, List.contains_nil, Bool.or_false]
  rw [Bool.or_comm (s == "trimestre") (s == "cantidad")]

/-- Any fractional part below 100 prints with exactly two digits. -/
theorem twoDigits_length : ∀ f, f < 100 → (twoDigits f).length = 2 := by decide

/-- The `toFixed(2)` output always splits as integer part, a dot, and
exactly two fractional digits. -/
theorem jsToFixed2_decimal_shape (q : ℚ) :
    ∃ i f, jsToFixed2 q = i ++ "." ++ f ∧ f.length = 2 :=
  ⟨(if q.num < 0 then "-" else "") ++ toString (scaledHundred q / 100),
   twoDigits (scaledHundred q % 100), rfl,
   twoDigits_length _ (Nat.mod_lt _ (by decide))⟩

/-!
## Claims
-/

/-- C3: for every call `renderTable(target, columns, rows)` where
`rows` is null, undefined, or an empty array, the target's content
becomes exactly the fixed "no data" placeholder (`<em>Sin datos</em>`)
and no table element is produced; the function returns without building
any header or body.  Holds in all three variants. -/
theorem renderTable_no_rows_placeholder (columns : Option (List String))
    (rows : Option (List Row)) (h : rows = none ∨ rows = some []) :
    ActCubo.renderTable columns rows = Except.ok "<em>Sin datos</em>" ∧
    Funciones.renderTable columns rows = Except.ok "<em>Sin datos</em>" ∧
    Unnamed.renderTable columns rows = Except.ok "<em>Sin datos</em>" := by
  rcases h with rfl | rfl <;> exact ⟨rfl, rfl, rfl⟩

theorem renderTable_no_rows_placeholder_witness :
    ((none : Option (List Row)) = none ∨ (none : Option (List Row)) = some []) ∧
    ActCubo.renderTable (some ["Producto"]) none = Except.ok "<em>Sin datos</em>" :=
  ⟨Or.inl rfl, (renderTable_no_rows_placeholder (some ["Producto"]) none (Or.inl rfl)).1⟩

/-- C10: when `rows` is null, undefined, or empty, `renderTable` never
reads `columns`: the call succeeds and writes the placeholder even when
`columns` is null or undefined; `columns` is only iterated on the
non-empty-rows path, where a null `columns` makes the `for…of` loop
throw.  Stated for the two variants the claim cites (actCubo and the
unnamed file). -/
theorem renderTable_columns_unread_when_no_rows (columns : Option (List String))
    (rows : Option (List Row)) (h : rows = none ∨ rows = some []) :
    (ActCubo.renderTable columns rows = Except.ok "<em>Sin datos</em>" ∧
     Unnamed.renderTable columns rows = Except.ok "<em>Sin datos</em>") ∧
    (∀ r rs, ActCubo.renderTable none (some (r :: rs)) = Except.error JSError.typeError ∧
             Unnamed.renderTable none (some (r :: rs)) = Except.error JSError.typeError) := by
  refine ⟨?_, fun r rs => ⟨rfl, rfl⟩⟩
  rcases h with rfl | rfl <;> exact ⟨rfl, rfl⟩

theorem renderTable_columns_unread_witness :
    ((some ([] : List Row)) = (none : Option (List Row)) ∨ some ([] : List Row) = some []) ∧
    ActCubo.renderTable none (some []) = Except.ok "<em>Sin datos</em>" ∧
    ActCubo.renderTable none (some [[("A", JSValue.str "x")]]) = Except.error JSError.typeError :=
  ⟨Or.inr rfl,
   (renderTable_columns_unread_when_no_rows none (some []) (Or.inr rfl)).1.1,
   ((renderTable_columns_unread_when_no_rows none (some []) (Or.inr rfl)).2
      [("A", JSValue.str "x")] []).1⟩

/-- C5: with non-empty rows, the rendered header holds one `<th>` cell
per entry of `columns` in exactly the input order, and the body holds
one `<tr>` per input row in input order, each with one `<td>` per
column in that same column order (map/join normal form of the
markup). -/
theorem renderTable_preserves_order (cs : List String) (r : Row) (rs : List Row) :
    ActCubo.renderTable (some cs) (some (r :: rs)) =
      Except.ok
        ("<table>"
          ++ ("<thead><tr>" ++ strJoin (cs.map fun c => "<th>" ++ c ++ "</th>")
               ++ "</tr></thead>")
          ++ ("<tbody>"
               ++ strJoin ((r :: rs).map fun row =>
                    "<tr>"
                      ++ strJoin (cs.map fun c => "<td>" ++ ActCubo.renderCell row c ++ "</td>")
                      ++ "</tr>")
               ++ "</tbody>")
          ++ "</table>") := by
  show Except.ok (tableHTML ActCubo.renderCell cs (r :: rs)) = _
  rw [tableHTML_eq]

/-- C6: the target's content after a (successful) call is a function of
that call's `columns` and `rows` only -- the `innerHTML` assignment
fully replaces whatever a previous call left there.  For any two prior
display states `dom` and `dom'` (e.g. the results of two different
first calls), the content of the target after rendering the same data
is the same, and equals the markup produced by `renderTable`. -/
theorem renderTable_replaces_content (dom dom' : String → String) (id : String)
    (columns : Option (List String)) (rows : Option (List Row)) (d d' : String → String)
    (h : ActCubo.renderTableInto dom id columns rows = Except.ok d)
    (h' : ActCubo.renderTableInto dom' id columns rows = Except.ok d') :
    d id = d' id ∧
    ∀ html, ActCubo.renderTable columns rows = Except.ok html → d id = html := by
  cases hr : ActCubo.renderTable columns rows with
  | error e =>
      rw [ActCubo.renderTableInto, hr] at h
      exact absurd h (by simp [Except.map])
  | ok html =>
      rw [ActCubo.renderTableInto, hr] at h
      rw [ActCubo.renderTableInto, hr] at h'
      simp only [Except.map] at h h'
      cases h; cases h'
      refine ⟨by simp [setInnerHTML], fun html2 h2 => ?_⟩
      cases h2
      simp [setInnerHTML]

theorem renderTable_replaces_content_witness :
    (ActCubo.renderTableInto (fun _ => "previous table") "t" (some ["A"])
        (some [[("A", JSValue.str "x")]]) =
      Except.ok (setInnerHTML (fun _ => "previous table") "t"
        "<table><thead><tr><th>A</th></tr></thead><tbody><tr><td>x</td></tr></tbody></table>")) ∧
    (ActCubo.renderTableInto (fun _ => "other history") "t" (some ["A"])
        (some [[("A", JSValue.str "x")]]) =
      Except.ok (setInnerHTML (fun _ => "other history") "t"
        "<table><thead><tr><th>A</th></tr></thead><tbody><tr><td>x</td></tr></tbody></table>")) ∧
    setInnerHTML (fun _ => "previous table") "t"
        "<table><thead><tr><th>A</th></tr></thead><tbody><tr><td>x</td></tr></tbody></table>" "t"
      = setInnerHTML (fun _ => "other history") "t"
        "<table><thead><tr><th>A</th></tr></thead><tbody><tr><td>x</td></tr></tbody></table>" "t" :=
  ⟨rfl, rfl,
   (renderTable_replaces_content (fun _ => "previous table") (fun _ => "other history") "t"
      (some ["A"]) (some [[("A", JSValue.str "x")]]) _ _ rfl rfl).1⟩

/-- C1 counterexample: the claim quantifies over every `renderTable`
call and its cited source includes the top-level `renderTable` of
`src/unnamed/part_000`, which applies `toFixed(2)` to every number and
never truncates: rendering the value 4.9 in column "Trimestre" there
produces the cell `4.90`, not the truncated `4` the claim requires. -/
theorem unnamed_trimestre_not_truncated :
    Unnamed.renderTable (some ["Trimestre"])
        (some [[("Trimestre", JSValue.num (Rat.divInt 49 10))]]) =
      Except.ok
        "<table><thead><tr><th>Trimestre</th></tr></thead><tbody><tr><td>4.90</td></tr></tbody></table>" ∧
    Unnamed.renderTable (some ["Trimestre"])
        (some [[("Trimestre", JSValue.num (Rat.divInt 49 10))]]) ≠
      Except.ok
        "<table><thead><tr><th>Trimestre</th></tr></thead><tbody><tr><td>4</td></tr></tbody></table>" := by
  have h1 : Unnamed.renderTable (some ["Trimestre"])
      (some [[("Trimestre", JSValue.num (Rat.divInt 49 10))]]) =
      Except.ok
        "<table><thead><tr><th>Trimestre</th></tr></thead><tbody><tr><td>4.90</td></tr></tbody></table>" := by
    show Except.ok (tableHTML Unnamed.renderCell _ _) = _
    exact congrArg Except.ok (by decide)
  refine ⟨h1, fun h => ?_⟩
  rw [h1] at h
  injection h with h
  exact absurd h (by decide)

/-- C1 (amended): in the actCubo and funciones `renderTable` variants
-- the ones whose integer-column list holds año/cantidad/trimestre --
a numeric cell whose lower-cased column name is in that set renders as
the value truncated toward zero (`Math.trunc`), not rounded; the
variants of `src/unnamed/part_000` do not truncate. -/
theorem integer_columns_truncate (row : Row) (c : String) (q : ℚ)
    (hv : getProp row c = JSValue.num q)
    (hc : ActCubo.integerColumns.contains (jsToLowerCase c) = true) :
    ActCubo.renderCell row c = toString (jsTrunc q) ∧
    Funciones.renderCell row c = toString (jsTrunc q) := by
  constructor
  · rw [ActCubo.renderCell, hv, hc]
    rfl
  · rw [Funciones.renderCell, hv, funciones_contains_eq, hc]
    rfl

theorem integer_columns_truncate_witness :
    getProp [("Trimestre", JSValue.num (Rat.divInt 49 10))] "Trimestre" =
        JSValue.num (Rat.divInt 49 10) ∧
    ActCubo.integerColumns.contains (jsToLowerCase "Trimestre") = true ∧
    ActCubo.renderCell [("Trimestre", JSValue.num (Rat.divInt 49 10))] "Trimestre" = "4" :=
  ⟨by decide, by decide,
   (integer_columns_truncate [("Trimestre", JSValue.num (Rat.divInt 49 10))] "Trimestre"
      (Rat.divInt 49 10) (by decide) (by decide)).1.trans (by decide)⟩

/-- C2: a numeric cell whose lower-cased column name is NOT in the
integer-like set renders as the value formatted by `toFixed(2)`, whose
output always has exactly two decimal places (e.g. 3 renders as
`3.00`).  Holds in all three variants (the unnamed variant applies
`toFixed(2)` to every number, hence in particular to these cells). -/
theorem numeric_cells_two_decimals (row : Row) (c : String) (q : ℚ)
    (hv : getProp row c = JSValue.num q)
    (hc : ActCubo.integerColumns.contains (jsToLowerCase c) = false) :
    ActCubo.renderCell row c = jsToFixed2 q ∧
    Funciones.renderCell row c = jsToFixed2 q ∧
    Unnamed.renderCell row c = jsToFixed2 q ∧
    ∃ i f, jsToFixed2 q = i ++ "." ++ f ∧ f.length = 2 := by
  refine ⟨?_, ?_, ?_, jsToFixed2_decimal_shape q⟩
  · rw [ActCubo.renderCell, hv, hc]
    rfl
  · rw [Funciones.renderCell, hv, funciones_contains_eq, hc]
    rfl
  · rw [Unnamed.renderCell, hv]

theorem numeric_cells_two_decimals_witness :
    getProp [("Ventas", JSValue.num (Rat.divInt 3 1))] "Ventas" =
        JSValue.num (Rat.divInt 3 1) ∧
    ActCubo.integerColumns.contains (jsToLowerCase "Ventas") = false ∧
    ActCubo.renderCell [("Ventas", JSValue.num (Rat.divInt 3 1))] "Ventas" = "3.00" :=
  ⟨by decide, by decide,
   (numeric_cells_two_decimals [("Ventas", JSValue.num (Rat.divInt 3 1))] "Ventas"
      (Rat.divInt 3 1) (by decide) (by decide)).1.trans (by decide)⟩

/-- C4 counterexample: the claim quantifies over every `renderTable`
call and its cited source includes line 157 of
`src/funciones/static/main.js`, where the cell is interpolated with
`value !== undefined ? value : ""`: a `null` value passes the
`!== undefined` test and is stringified by the template literal as
`"null"`, not as the empty string the claim requires. -/
theorem funciones_null_renders_null :
    Funciones.renderCell [("A", JSValue.null)] "A" = "null" ∧
    Funciones.renderCell [("A", JSValue.null)] "A" ≠ "" := by
  decide

/-- C4 (amended): an `undefined` cell value -- including a column name
absent from the row record -- renders as the empty string in all three
variants; a `null` value renders as the empty string only in the
actCubo variant (whose interpolation is `v ?? ""`), while the funciones
and unnamed variants render it as the string `"null"`. -/
theorem null_undef_cell_rendering (row : Row) (c : String) :
    (getProp row c = JSValue.undef →
      ActCubo.renderCell row c = "" ∧
      Funciones.renderCell row c = "" ∧
      Unnamed.renderCell row c = "") ∧
    (getProp row c = JSValue.null →
      ActCubo.renderCell row c = "" ∧
      Funciones.renderCell row c = "null" ∧
      Unnamed.renderCell row c = "null") := by
  constructor <;> intro h <;>
    rw [ActCubo.renderCell, Funciones.renderCell, Unnamed.renderCell, h] <;>
    exact ⟨rfl, rfl, rfl⟩

theorem null_undef_cell_rendering_witness :
    getProp [("A", JSValue.null)] "B" = JSValue.undef ∧
    getProp [("A", JSValue.null)] "A" = JSValue.null ∧
    ActCubo.renderCell [("A", JSValue.null)] "B" = "" ∧
    ActCubo.renderCell [("A", JSValue.null)] "A" = "" ∧
    Unnamed.renderCell [("A", JSValue.null)] "A" = "null" :=
  ⟨by decide, by decide,
   ((null_undef_cell_rendering [("A", JSValue.null)] "B").1 (by decide)).1,
   ((null_undef_cell_rendering [("A", JSValue.null)] "A").2 (by decide)).1,
   ((null_undef_cell_rendering [("A", JSValue.null)] "A").2 (by decide)).2.2⟩

/-- C7 counterexample: the claim quantifies over every request-issuing
handler, but `generarCubo` of `src/actCubo/static/main.js` (lines
260-276, a cited source of the claim) has no `try/catch`: on a fetch
failure the rejection escapes uncaught, the container keeps the loading
text, and no "failed to load" placeholder is shown. -/
theorem generarCubo_uncaught_failure :
    (ActCubo.generarCubo (fun _ => "") (Except.error ())).uncaught = true ∧
    (ActCubo.generarCubo (fun _ => "") (Except.error ())).dom "cubo-resultado" =
      "<em>Cargando cubo...</em>" ∧
    (ActCubo.generarCubo (fun _ => "") (Except.error ())).dom "cubo-resultado" ≠
      "<em>Error al cargar</em>" := by
  refine ⟨rfl, ?_, ?_⟩ <;> simp [ActCubo.generarCubo, setInnerHTML]

/-- C7 (amended): the cara and dice handlers of
`src/actCubo/static/main.js` wrap fetch-and-render in `try/catch`: a
failure is caught, the handler's display region shows the generic
"failed to load" placeholder, and `renderTable` output reaches the
region only on success.  The cubo handler (and likewise the celda
handler) has no catch: there a failure escapes uncaught and the region
keeps the loading text. -/
theorem handlers_failure_behavior (dom : String → String) :
    ((ActCubo.generarCara dom (Except.error ())).uncaught = false ∧
     (ActCubo.generarCara dom (Except.error ())).dom "cara-resultado" =
       "<em>Error al cargar</em>") ∧
    ((ActCubo.generarDice dom (Except.error ())).uncaught = false ∧
     (ActCubo.generarDice dom (Except.error ())).dom "dice-resultado" =
       "<em>Error al cargar datos</em>") ∧
    ((ActCubo.generarCubo dom (Except.error ())).uncaught = true ∧
     (ActCubo.generarCubo dom (Except.error ())).dom "cubo-resultado" =
       "<em>Cargando cubo...</em>") ∧
    (∀ (resp : ApiResponse) (html : String),
       ActCubo.renderTable resp.columns resp.data = Except.ok html →
       (ActCubo.generarCara dom (Except.ok resp)).uncaught = false ∧
       (ActCubo.generarCara dom (Except.ok resp)).dom "cara-resultado" = html) := by
  refine ⟨⟨rfl, by simp [ActCubo.generarCara, setInnerHTML]⟩,
          ⟨rfl, by simp [ActCubo.generarDice, setInnerHTML]⟩,
          ⟨rfl, by simp [ActCubo.generarCubo, setInnerHTML]⟩,
          fun resp html h => ?_⟩
  have h2 : ActCubo.renderTableInto
      (setInnerHTML dom "cara-resultado" "<em>Cargando...</em>")
      "cara-resultado" resp.columns resp.data =
      Except.ok (setInnerHTML
        (setInnerHTML dom "cara-resultado" "<em>Cargando...</em>")
        "cara-resultado" html) := by
    rw [ActCubo.renderTableInto, h]
    rfl
  constructor
  · simp [ActCubo.generarCara, h2]
  · simp [ActCubo.generarCara, h2, setInnerHTML]

theorem handlers_failure_behavior_witness :
    ActCubo.renderTable (some ["A"]) (some [[("A", JSValue.str "x")]]) =
      Except.ok "<table><thead><tr><th>A</th></tr></thead><tbody><tr><td>x</td></tr></tbody></table>" ∧
    (ActCubo.generarCara (fun _ => "start")
        (Except.ok ⟨some ["A"], none, some [[("A", JSValue.str "x")]]⟩)).dom "cara-resultado" =
      "<table><thead><tr><th>A</th></tr></thead><tbody><tr><td>x</td></tr></tbody></table>" :=
  ⟨rfl,
   ((handlers_failure_behavior (fun _ => "start")).2.2.2
      ⟨some ["A"], none, some [[("A", JSValue.str "x")]]⟩ _ rfl).2⟩

/-- C8: for the `/api/cubo` response shape (a mapping from view label
to row array), each view with a non-null, non-empty row array produces
exactly one block, in response order, titled with the view label and
holding the table rendered with the column sequence
`Object.keys(rows[0])` -- the key sequence of the view's first row;
views whose row array is null or empty produce no block at all. -/
theorem btnCuboHandler_blocks (data : List (String × Option (List Row))) :
    Unnamed.btnCuboHandler data =
      data.filterMap (fun entry =>
        match entry.2 with
        | none => none
        | some [] => none
        | some (r :: rs) =>
            some ⟨entry.1, tableHTML Unnamed.renderCell (r.map Prod.fst) (r :: rs)⟩) := by
  suffices h : ∀ (l : List (String × Option (List Row))) (acc : List CuboBlock),
      l.foldl (fun acc entry =>
        match entry.2 with
        | none => acc
        | some [] => acc
        | some (r :: rs) =>
            acc ++ [⟨entry.1, tableHTML Unnamed.renderCell (r.map Prod.fst) (r :: rs)⟩]) acc
      = acc ++ l.filterMap (fun entry =>
          match entry.2 with
          | none => none
          | some [] => none
          | some (r :: rs) =>
              some ⟨entry.1, tableHTML Unnamed.renderCell (r.map Prod.fst) (r :: rs)⟩) by
    rw [Unnamed.btnCuboHandler]
    exact (h data []).trans (List.nil_append _)
  intro l
  induction l with
  | nil => intro acc; simp
  | cons e rest ih =>
      intro acc
      rcases e with ⟨name, _ | (_ | ⟨r, rs⟩)⟩ <;>
        simp [List.foldl_cons, List.filterMap_cons, ih, List.append_assoc]

/-- A verbatim occurrence inside the left part of a concatenation. -/
theorem Occurs.inAppendLeft {m a : String} (h : Occurs m a) (b : String) :
    Occurs m (a ++ b) := by
  obtain ⟨p, q, rfl⟩ := h
  exact ⟨p, q ++ b, by simp [String.append_assoc]⟩

/-- A verbatim occurrence inside the right part of a concatenation. -/
theorem Occurs.inAppendRight (a : String) {m b : String} (h : Occurs m b) :
    Occurs m (a ++ b) := by
  obtain ⟨p, q, rfl⟩ := h
  exact ⟨a ++ p, q, by simp [String.append_assoc]⟩

/-- Every column name occurs verbatim in the produced markup. -/
theorem occurs_column_tableHTML (cell : Row → String → String) (cs : List String)
    (rows : List Row) {c : String} (hc : c ∈ cs) :
    Occurs c (tableHTML cell cs rows) := by
  rw [tableHTML_eq]
  apply Occurs.inAppendLeft
  apply Occurs.inAppendLeft
  apply Occurs.inAppendRight
  apply Occurs.inAppendLeft
  apply Occurs.inAppendRight
  exact occurs_strJoin_map _ hc (occurs_mid "<th>" c "</th>")

/-- Every produced cell text occurs verbatim in the produced markup. -/
theorem occurs_value_tableHTML (cell : Row → String → String) (cs : List String)
    (rows : List Row) {row : Row} {c m : String} (hc : c ∈ cs) (hrow : row ∈ rows)
    (hm : cell row c = m) :
    Occurs m (tableHTML cell cs rows) := by
  rw [tableHTML_eq]
  apply Occurs.inAppendLeft
  apply Occurs.inAppendRight
  apply Occurs.inAppendLeft
  apply Occurs.inAppendRight
  refine occurs_strJoin_map _ hrow ?_
  apply Occurs.inAppendLeft
  apply Occurs.inAppendRight
  refine occurs_strJoin_map _ hc ?_
  rw [hm]
  exact occurs_mid "<td>" m "</td>"

/-- C9 (implicit): `renderTable` performs no HTML escaping: every
column name and every string cell value is concatenated verbatim into
the markup written to the target, so HTML-special characters such as
`<` and `&` appear unescaped.  Stated for the two cited variants
(actCubo and the unnamed file). -/
theorem renderer_no_html_escaping (cs : List String) (r : Row) (rs : List Row)
    (row : Row) (c s : String) (hc : c ∈ cs) (hrow : row ∈ r :: rs)
    (hs : getProp row c = JSValue.str s) :
    (∃ out, ActCubo.renderTable (some cs) (some (r :: rs)) = Except.ok out ∧
       Occurs c out ∧ Occurs s out) ∧
    (∃ out, Unnamed.renderTable (some cs) (some (r :: rs)) = Except.ok out ∧
       Occurs c out ∧ Occurs s out) := by
  constructor
  · refine ⟨tableHTML ActCubo.renderCell cs (r :: rs), rfl,
      occurs_column_tableHTML _ _ _ hc, ?_⟩
    refine occurs_value_tableHTML _ _ _ hc hrow ?_
    rw [ActCubo.renderCell, hs]
  · refine ⟨tableHTML Unnamed.renderCell cs (r :: rs), rfl,
      occurs_column_tableHTML _ _ _ hc, ?_⟩
    refine occurs_value_tableHTML _ _ _ hc hrow ?_
    rw [Unnamed.renderCell, hs]

theorem renderer_no_html_escaping_witness :
    "a<b" ∈ ["a<b"] ∧
    [("a<b", JSValue.str "<i>&x")] ∈ [[("a<b", JSValue.str "<i>&x")]] ∧
    getProp [("a<b", JSValue.str "<i>&x")] "a<b" = JSValue.str "<i>&x" ∧
    (∃ out, ActCubo.renderTable (some ["a<b"])
        (some [[("a<b", JSValue.str "<i>&x")]]) = Except.ok out ∧
       Occurs "a<b" out ∧ Occurs "<i>&x" out) :=
  ⟨by decide, by decide, by decide,
   (renderer_no_html_escaping ["a<b"] [("a<b", JSValue.str "<i>&x")] []
      [("a<b", JSValue.str "<i>&x")] "a<b" "<i>&x"
      (by decide) (by decide) (by decide)).1⟩
